import Mathlib

/-!
# Kawogo Care backend: the `POST /api/analyze` handler of `kawogo-backend/server.js`

A shallow embedding of the request handler and of `getFallbackAdvice`.

* JavaScript values that reach the handler come from `JSON.parse` (the bodies
  of the two upstream responses), so they are modelled by `JsVal`.
* Numbers are IEEE 754 doubles: a finite double is held as the rational it
  denotes, and arithmetic rounds its exact result to the nearest double, ties
  to even (`roundDouble`). The sign of zero is not modelled.
* The two outbound `axios.post` calls are oracles of a `World`; the handler
  returns the response it sends together with the list of outbound calls it
  made, in order.
* Built-ins of the runtime whose text is not part of the repository
  (`Number::toString`, `StringToNumber`, `Buffer#toString('base64')`) are
  fields of `Platform`.
-/

namespace Kawogo

/-! ## JavaScript values -/

/-- A JavaScript number: a finite double, held as the rational it denotes, or
one of the non-finite values. -/
inductive JsNumber where
  | fin (q : ℚ)
  | nan
  | posInf
  | negInf
  deriving DecidableEq

/-- A JavaScript value as produced by `JSON.parse`, plus `undefined`
(the result of reading an absent property). Objects are association lists;
a property read takes the first entry with the key. -/
inductive JsVal where
  | undefined
  | null
  | bool (b : Bool)
  | num (n : JsNumber)
  | str (s : String)
  | arr (xs : List JsVal)
  | obj (fields : List (String × JsVal))

/-- An error object as thrown by `axios.post` or by the runtime (`TypeError`):
`error.code`, `error.response?.status`, `error.response?.data`, `error.message`.
`response = none` is `error.response === undefined`. -/
structure JsError where
  code : Option String
  response : Option (Nat × JsVal)
  message : String

/-- A runtime `TypeError`: it has neither `code` nor `response`. -/
def typeError (msg : String) : JsError :=
  { code := none, response := none, message := msg }

/-- Built-ins of the JavaScript runtime that the handler relies on. -/
structure Platform where
  /-- The built-in `Number::toString` on a finite or non-finite number. -/
  numberToString : JsNumber → String
  /-- The built-in `StringToNumber`: `ToNumber` applied to a string. -/
  stringToNumber : String → JsNumber
  /-- The built-in `Buffer.prototype.toString('base64')` on the bytes of the upload. -/
  toBase64 : List Nat → String

/-- The test `v === undefined || v === null` made by `?.`. -/
def JsVal.isNullish : JsVal → Bool
  | .undefined => true
  | .null => true
  | _ => false

/-- The conversion `ToBoolean`: the values that are falsy are `undefined`, `null`, `false`,
`0`, `NaN` and the empty string. -/
def JsVal.truthy : JsVal → Bool
  | .undefined => false
  | .null => false
  | .bool b => b
  | .num (.fin q) => decide (q ≠ 0)
  | .num .nan => false
  | .num _ => true
  | .str s => decide (s ≠ "")
  | .arr _ => true
  | .obj _ => true

/-- Own-property lookup in an object parsed from JSON; `undefined` when absent. -/
def lookupField (k : String) : List (String × JsVal) → JsVal
  | [] => .undefined
  | (k', v) :: rest => if k' = k then v else lookupField k rest

/-- Whether an object parsed from JSON has an own property `k`. -/
def hasOwn (k : String) : List (String × JsVal) → Bool
  | [] => false
  | (k', _) :: rest => if k' = k then true else hasOwn k rest

mutual
/-- The conversion `ToString(v)`. An array is joined with `,` (`Array.prototype.toString`
calls `join`). An object parsed from JSON gives `[object Object]` through the
inherited `Object.prototype.toString`, unless it has an own property
`toString`: that own value is never callable, the inherited `valueOf` returns
the object itself, and `OrdinaryToPrimitive` throws a `TypeError`. -/
def toStr (P : Platform) : JsVal → Except JsError String
  | .undefined => .ok "undefined"
  | .null => .ok "null"
  | .bool true => .ok "true"
  | .bool false => .ok "false"
  | .num n => .ok (P.numberToString n)
  | .str s => .ok s
  | .arr xs =>
    match elemStrs P xs with
    | .error e => .error e
    | .ok parts => .ok (",".intercalate parts)
  | .obj fields =>
    if hasOwn "toString" fields then
      .error (typeError "Cannot convert object to primitive value")
    else .ok "[object Object]"
termination_by structural v => v
/-- The strings that `Array.prototype.join` puts between the separators, from
left to right: the empty string for `undefined` and `null`, `ToString` of the
element otherwise. -/
def elemStrs (P : Platform) : List JsVal → Except JsError (List String)
  | [] => .ok []
  | x :: rest =>
    match (match x with
      | JsVal.undefined => Except.ok ""
      | JsVal.null => Except.ok ""
      | v => toStr P v) with
    | .error e => .error e
    | .ok s =>
      match elemStrs P rest with
      | .error e => .error e
      | .ok parts => .ok (s :: parts)
termination_by structural xs => xs
end

/-- The conversion `ToNumber(v)`, the one made by `*`. For arrays and objects
`ToPrimitive` with hint number ends in the same `toString` call as
`ToString` (the inherited `valueOf` returns the object itself). -/
def toNumber (P : Platform) : JsVal → Except JsError JsNumber
  | .undefined => .ok .nan
  | .null => .ok (.fin 0)
  | .bool true => .ok (.fin 1)
  | .bool false => .ok (.fin 0)
  | .num n => .ok n
  | .str s => .ok (P.stringToNumber s)
  | .arr xs =>
    match toStr P (.arr xs) with
    | .error e => .error e
    | .ok s => .ok (P.stringToNumber s)
  | .obj fields =>
    match toStr P (.obj fields) with
    | .error e => .error e
    | .ok s => .ok (P.stringToNumber s)

/-- The integer nearest to `y`, a tie going to the even neighbour. -/
def roundHalfEven (y : ℚ) : ℤ :=
  if y - ⌊y⌋ < 1 / 2 then ⌊y⌋
  else if 1 / 2 < y - ⌊y⌋ then ⌊y⌋ + 1
  else if ⌊y⌋ % 2 = 0 then ⌊y⌋
  else ⌊y⌋ + 1

/-- The spacing of the doubles around `x`: `2 ^ (e - 52)` for
`2 ^ e ≤ |x| < 2 ^ (e + 1)`, with the exponent held at `-1022` in the
subnormal range. -/
def ulp (x : ℚ) : ℚ := (2 : ℚ) ^ (max (Int.log 2 |x|) (-1022) - 52)

/-- The multiple of `ulp x` nearest to `x`, ties to even: the double nearest to
`x` as long as the result stays in the finite range. -/
def roundDouble (x : ℚ) : ℚ := roundHalfEven (x / ulp x) * ulp x

/-- The double that an exact result `x` is rounded to; a result that rounds to
`2 ^ 1024` or beyond overflows to an infinity. -/
def JsNumber.ofRat (x : ℚ) : JsNumber :=
  if (2 : ℚ) ^ 1024 ≤ roundDouble x then .posInf
  else if roundDouble x ≤ -(2 : ℚ) ^ 1024 then .negInf
  else .fin (roundDouble x)

/-- The number that `JSON.parse` reads from the decimal literal `q`. -/
def jsonNumber (q : ℚ) : JsVal := .num (JsNumber.ofRat q)

/-- The product `n * 100` of line 73, rounded to a double. -/
def JsNumber.times100 : JsNumber → JsNumber
  | .fin q => JsNumber.ofRat (q * 100)
  | .nan => .nan
  | .posInf => .posInf
  | .negInf => .negInf

/-- The function `Math.round`: the integer nearest to the argument, a half
going towards plus infinity (the language defines the result exactly, with no
intermediate rounding); non-finite values are returned unchanged. -/
def mathRound : JsNumber → JsNumber
  | .fin q => .fin (⌊q + 1 / 2⌋ : ℤ)
  | .nan => .nan
  | .posInf => .posInf
  | .negInf => .negInf

/-- The property read `v.k` (or `v[k]`) for a name `k` that no built-in
prototype defines and that is not an array index: the handler reads
`predictions`, `class`, `confidence`, `candidates`, `content`, `parts` and
`text` this way. Reading from `undefined` or `null` throws a `TypeError`;
every other value that is not an object has no such property. -/
def getField (k : String) : JsVal → Except JsError JsVal
  | .undefined =>
    .error (typeError ("Cannot read properties of undefined (reading \x27" ++ k ++ "\x27)"))
  | .null =>
    .error (typeError ("Cannot read properties of null (reading \x27" ++ k ++ "\x27)"))
  | .obj fields => .ok (lookupField k fields)
  | _ => .ok .undefined

/-- The element read `v[0]`. On a string it is the first character (JavaScript
gives the first UTF-16 code unit; the handler only reads a property of the
result, which is `undefined` for every string). -/
def getIndex0 : JsVal → Except JsError JsVal
  | .undefined => .error (typeError "Cannot read properties of undefined (reading \x270\x27)")
  | .null => .error (typeError "Cannot read properties of null (reading \x270\x27)")
  | .arr [] => .ok .undefined
  | .arr (x :: _) => .ok x
  | .str s =>
    match s.data with
    | [] => .ok .undefined
    | c :: _ => .ok (.str (String.singleton c))
  | .obj fields => .ok (lookupField "0" fields)
  | _ => .ok .undefined

/-- The optional chain `data.predictions?.[0]?.k` of lines 71 and 72. -/
def firstPrediction (k : String) (data : JsVal) : Except JsError JsVal :=
  match getField "predictions" data with
  | .error e => .error e
  | .ok preds =>
    if preds.isNullish then .ok .undefined
    else
      match getIndex0 preds with
      | .error e => .error e
      | .ok first => if first.isNullish then .ok .undefined else getField k first

/-- The plain chain `data.predictions[0].confidence` of line 73. -/
def firstConfidence (data : JsVal) : Except JsError JsVal :=
  match getField "predictions" data with
  | .error e => .error e
  | .ok preds =>
    match getIndex0 preds with
    | .error e => .error e
    | .ok first => getField "confidence" first

/-- Line 71: `data.predictions?.[0]?.class || "Healthy"`. -/
def diseaseCodeOf (data : JsVal) : Except JsError JsVal :=
  match firstPrediction "class" data with
  | .error e => .error e
  | .ok c => if c.truthy then .ok c else .ok (.str "Healthy")

/-- Lines 72 to 74: the confidence shown to the caller. -/
def confidenceOf (P : Platform) (data : JsVal) : Except JsError JsVal :=
  match firstPrediction "confidence" data with
  | .error e => .error e
  | .ok c =>
    if c.truthy then
      match firstConfidence data with
      | .error e => .error e
      | .ok c' =>
        match toNumber P c' with
        | .error e => .error e
        | .ok n => .ok (.num (mathRound n.times100))
    else .ok (.str "N/A")

/-! ## The fallback advice table -/

/-- What `diseaseMap[key]` evaluates to. -/
inductive MapEntry where
  /-- An own entry `{ advice: ... }` of the object literal. -/
  | own (advice : String)
  /-- A member inherited from `Object.prototype` (a built-in function, or
  `Object.prototype` itself for `__proto__`). -/
  | inherited
  /-- No such property: `undefined`. -/
  | absent
  deriving DecidableEq

/-- The property names of `Object.prototype`. -/
def objectPrototypeKeys : List String :=
  ["constructor", "__defineGetter__", "__defineSetter__", "hasOwnProperty",
   "__lookupGetter__", "__lookupSetter__", "isPrototypeOf", "propertyIsEnumerable",
   "toString", "valueOf", "__proto__", "toLocaleString"]

/-- The object literal `diseaseMap` of `getFallbackAdvice`, read at a key. -/
def diseaseMap (key : String) : MapEntry :=
  if key = "CBB" then
    .own "Cassava Bacterial Blight: Remove infected leaves, improve drainage, and spray with copper-based solutions."
  else if key = "CMD" then
    .own "Cassava Mosaic Disease: Uproot infected plants and use clean cuttings from resistant varieties."
  else if key = "CBSD" then
    .own "Cassava Brown Streak Disease: Destroy infected plants and rotate crops for 2 years."
  else if key ∈ objectPrototypeKeys then .inherited
  else .absent

/-- The read `entry?.advice`: the string of an own entry; `none` stands for `undefined`,
which is what an absent entry gives through `?.` and what a member of
`Object.prototype` gives because it has no property `advice`. -/
def MapEntry.advice : MapEntry → Option String
  | .own a => some a
  | .inherited => none
  | .absent => none

/-- The generic sentence of the template literal of `getFallbackAdvice`. -/
def genericAdvice (diseaseCode : String) : String :=
  diseaseCode ++ " detected. Consult your local agriculture officer for diagnosis and treatment."

/-- The call `getFallbackAdvice(diseaseCode)` for a string argument:
`diseaseMap[diseaseCode]?.advice || <template>`. -/
def getFallbackAdvice (diseaseCode : String) : String :=
  match (diseaseMap diseaseCode).advice with
  | some a => if a ≠ "" then a else genericAdvice diseaseCode
  | none => genericAdvice diseaseCode

/-- The call `getFallbackAdvice(v)` for an arbitrary value: the property key and the
template literal both convert `v` with `ToString`, which may throw. -/
def getFallbackAdviceOf (P : Platform) (v : JsVal) : Except JsError String :=
  match toStr P v with
  | .error e => .error e
  | .ok code => .ok (getFallbackAdvice code)

/-! ## The handler -/

/-- The environment variables the handler reads. `none` is an unset variable. -/
structure Env where
  ROBOFLOW_API : Option String
  GEMINI_API_KEY : Option String
  NODE_ENV : Option String

/-- Truthiness of `process.env.X`: set and not the empty string. -/
def envTruthy : Option String → Bool
  | none => false
  | some s => decide (s ≠ "")

/-- The text of `process.env.X` inside a template literal. -/
def envText : Option String → String
  | none => "undefined"
  | some s => s

/-- The file that multer stores in `req.file`. -/
structure UploadedFile where
  originalname : String
  mimetype : String
  size : Nat
  buffer : List Nat

/-- The part of the request the handler reads: `req.file`, absent or present. -/
structure Request where
  file : Option UploadedFile

/-- An outbound HTTP request made by the handler. -/
inductive Call where
  /-- The call `axios.post(process.env.ROBOFLOW_API, base64Image, ...)`. -/
  | roboflow (url body : String)
  /-- The call `axios.post(<Gemini url>, {contents: [{parts: [{text}]}]}, ...)`. -/
  | gemini (url text : String)
  deriving DecidableEq

/-- The outcome of each outbound call: the parsed body `response.data`, or the
error that `axios.post` throws (timeout, refused connection, non-2xx status). -/
structure World where
  roboflow : String → String → Except JsError JsVal
  gemini : String → String → Except JsError JsVal

/-- What the handler sends: the status, and the object given to `res.json`. -/
structure Response where
  status : Nat
  body : List (String × JsVal)

/-- The url of the Gemini call. -/
def geminiUrl (key : Option String) : String :=
  "https://generativelanguage.googleapis.com/v1beta/models/gemini-1.5-flash-latest:generateContent?key="
    ++ envText key

/-- The prompt text of the Gemini call (lines 97 to 107). -/
def geminiPrompt (diseaseCode : String) : String :=
  "You are an agricultural assistant focusing on cassava. \n" ++
  "Always interpret abbreviations as cassava-related diseases only:\n\n" ++
  "- CBSD = Cassava Brown Streak Disease\n" ++
  "- CMD = Cassava Mosaic Disease\n" ++
  "- CGM = Cassava Green Mite\n" ++
  "- CBB = Cassava Bacterial Blight\n\n" ++
  "Now, explain the disease " ++ diseaseCode ++
  " in simple language for farmers in 2–3 sentences: \n" ++
  "1) Symptoms \n" ++
  "2) Treatment or management practices"

/-- Line 120: `data.candidates[0].content.parts[0].text`. -/
def geminiText (data : JsVal) : Except JsError JsVal :=
  match getField "candidates" data with
  | .error e => .error e
  | .ok candidates =>
    match getIndex0 candidates with
    | .error e => .error e
    | .ok candidate =>
      match getField "content" candidate with
      | .error e => .error e
      | .ok content =>
        match getField "parts" content with
        | .error e => .error e
        | .ok parts =>
          match getIndex0 parts with
          | .error e => .error e
          | .ok part => getField "text" part

/-- Line 121: `advice.substring(0, 50)`. Only a string has a callable
`substring`; the call throws a `TypeError` on every other value, and returns
the advice as a string otherwise. -/
def checkSubstring : JsVal → Except JsError String
  | .str s => .ok s
  | .undefined =>
    .error (typeError "Cannot read properties of undefined (reading \x27substring\x27)")
  | .null =>
    .error (typeError "Cannot read properties of null (reading \x27substring\x27)")
  | _ => .error (typeError "advice.substring is not a function")

/-- Line 80: `diseaseCode === "Healthy"`. -/
def isHealthy : JsVal → Bool
  | .str s => decide (s = "Healthy")
  | _ => false

/-- The body of the inner `try` (lines 85 to 122): the calls made, and the
advice or the error thrown. -/
def tryAdvice (P : Platform) (env : Env) (W : World) (diseaseCode : JsVal) :
    List Call × Except JsError String :=
  if envTruthy env.GEMINI_API_KEY then
    match toStr P diseaseCode with
    | .error e => ([], .error e)
    | .ok code =>
      match W.gemini (geminiUrl env.GEMINI_API_KEY) (geminiPrompt code) with
      | .error e => ([.gemini (geminiUrl env.GEMINI_API_KEY) (geminiPrompt code)], .error e)
      | .ok data =>
        ([.gemini (geminiUrl env.GEMINI_API_KEY) (geminiPrompt code)],
          match geminiText data with
          | .error e => .error e
          | .ok advice => checkSubstring advice)
  else ([], getFallbackAdviceOf P diseaseCode)

/-- Lines 79 to 128: the advice for a disease code. An error of the inner
`try` is caught and replaced by the fallback advice; an error thrown inside
the `catch` block itself propagates. -/
def adviceFor (P : Platform) (env : Env) (W : World) (diseaseCode : JsVal) :
    List Call × Except JsError String :=
  if isHealthy diseaseCode then ([], .ok "No treatment needed! Your plant looks healthy.")
  else
    match tryAdvice P env W diseaseCode with
    | (calls, .ok advice) => (calls, .ok advice)
    | (calls, .error _) => (calls, getFallbackAdviceOf P diseaseCode)

/-- Lines 69 to 135: the work after a successful classification call. -/
def respond (P : Platform) (env : Env) (W : World) (data : JsVal) :
    List Call × Except JsError Response :=
  match diseaseCodeOf data with
  | .error e => ([], .error e)
  | .ok diseaseCode =>
    match confidenceOf P data with
    | .error e => ([], .error e)
    | .ok confidence =>
      match adviceFor P env W diseaseCode with
      | (calls, .error e) => (calls, .error e)
      | (calls, .ok advice) =>
        (calls, .ok { status := 200,
                      body := [("disease", diseaseCode), ("confidence", confidence),
                               ("advice", .str advice)] })

/-- The outer `try` block (lines 36 to 135). -/
def analyzeTry (P : Platform) (env : Env) (W : World) (req : Request) :
    List Call × Except JsError Response :=
  match req.file with
  | none => ([], .ok { status := 400, body := [("error", .str "No image uploaded")] })
  | some file =>
    if envTruthy env.ROBOFLOW_API then
      match W.roboflow (envText env.ROBOFLOW_API) (P.toBase64 file.buffer) with
      | .error e => ([.roboflow (envText env.ROBOFLOW_API) (P.toBase64 file.buffer)], .error e)
      | .ok data =>
        ((.roboflow (envText env.ROBOFLOW_API) (P.toBase64 file.buffer)) :: (respond P env W data).1,
          (respond P env W data).2)
    else ([], .ok { status := 500, body := [("error", .str "Roboflow API not configured")] })

/-- The outer `catch` block (lines 137 to 153). -/
def errorResponse (env : Env) (error : JsError) : Response :=
  if error.code = some "ECONNREFUSED" then
    { status := 503,
      body := [("error", .str "External service unavailable. Please try again later.")] }
  else if error.response.map Prod.fst = some 401 then
    { status := 500,
      body := [("error", .str "API authentication failed. Please check configuration.")] }
  else if error.response.map Prod.fst = some 429 then
    { status := 429, body := [("error", .str "Rate limit exceeded. Please wait and try again.")] }
  else
    { status := 500,
      body := [("error", .str "Analysis failed"),
               ("details", if env.NODE_ENV = some "development" then .str error.message
                           else .undefined)] }

/-- The handler of `POST /api/analyze`: the response sent and the outbound
calls made, in order. -/
def analyze (P : Platform) (env : Env) (W : World) (req : Request) : Response × List Call :=
  match analyzeTry P env W req with
  | (calls, .ok res) => (res, calls)
  | (calls, .error e) => (errorResponse env e, calls)

/-- A field of a response body is present when the object given to `res.json`
holds a value other than `undefined` for it (`JSON.stringify` omits the rest). -/
def hasField (k : String) (body : List (String × JsVal)) : Bool :=
  match lookupField k body with
  | .undefined => false
  | _ => true

/-! ## Concrete inputs used to exercise the model -/

/-- A runtime whose conversions are constant; the examples do not depend on them. -/
def samplePlatform : Platform :=
  { numberToString := fun _ => "0", stringToNumber := fun _ => .nan, toBase64 := fun _ => "AQID" }

/-- A request that carries a three-byte upload. -/
def sampleRequest : Request :=
  { file := some { originalname := "leaf.jpg", mimetype := "image/jpeg", size := 3,
                   buffer := [1, 2, 3] } }

/-- A request without a file. -/
def emptyRequest : Request := { file := none }

/-- Both services configured. -/
def fullEnv : Env :=
  { ROBOFLOW_API := some "https://detect.example/cassava", GEMINI_API_KEY := some "k",
    NODE_ENV := none }

/-- Only the advice key configured. -/
def noRoboflowEnv : Env :=
  { ROBOFLOW_API := none, GEMINI_API_KEY := some "k", NODE_ENV := none }

/-- Only the classification endpoint configured. -/
def noGeminiEnv : Env :=
  { ROBOFLOW_API := some "https://detect.example/cassava", GEMINI_API_KEY := none,
    NODE_ENV := none }

/-- The error axios throws when its `timeout` elapses. -/
def timeoutError : JsError :=
  { code := some "ECONNABORTED", response := none, message := "timeout of 30000ms exceeded" }

/-- The error axios throws when the connection is refused. -/
def refusedError : JsError :=
  { code := some "ECONNREFUSED", response := none,
    message := "connect ECONNREFUSED 127.0.0.1:443" }

/-- A world in which the classification call is refused. -/
def refusedWorld : World :=
  { roboflow := fun _ _ => .error refusedError, gemini := fun _ _ => .ok .null }

/-- A classification body with one prediction. -/
def prediction (cls : String) (confidence : JsVal) : JsVal :=
  .obj [("predictions", .arr [.obj [("class", .str cls), ("confidence", confidence)]])]

/-- A Gemini body whose first candidate carries `text`. -/
def geminiBody (text : JsVal) : JsVal :=
  .obj [("candidates", .arr [.obj [("content", .obj [("parts", .arr [.obj [("text", text)]])])]])]

/-- A world in which the classification call times out. -/
def timeoutWorld : World :=
  { roboflow := fun _ _ => .error timeoutError, gemini := fun _ _ => .ok (geminiBody (.str "x")) }

/-- A world with fixed outcomes of the two calls. -/
def fixedWorld (classification : JsVal) (advice : Except JsError JsVal) : World :=
  { roboflow := fun _ _ => .ok classification, gemini := fun _ _ => advice }

/-! ## Lemmas shared by the results below -/

/-- After a successful classification call the handler's answer is that of `respond`, or the mapping of the error `respond` throws. -/
theorem analyze_of_classified (P : Platform) (env : Env) (W : World) (req : Request)
    (file : UploadedFile) (data : JsVal) (hfile : req.file = some file)
    (hcfg : envTruthy env.ROBOFLOW_API = true)
    (hcall : W.roboflow (envText env.ROBOFLOW_API) (P.toBase64 file.buffer) = .ok data) :
    analyze P env W req =
      (match (respond P env W data).2 with
        | .ok res => res
        | .error e => errorResponse env e,
       Call.roboflow (envText env.ROBOFLOW_API) (P.toBase64 file.buffer)
         :: (respond P env W data).1) := by
  unfold analyze analyzeTry
  simp only [hfile, hcfg, hcall, if_true]
  cases (respond P env W data).2 <;> rfl

/-- A failed classification call is answered by the outer `catch`, and no other call is made. -/
theorem analyze_of_classify_error (P : Platform) (env : Env) (W : World) (req : Request)
    (file : UploadedFile) (e : JsError) (hfile : req.file = some file)
    (hcfg : envTruthy env.ROBOFLOW_API = true)
    (hcall : W.roboflow (envText env.ROBOFLOW_API) (P.toBase64 file.buffer) = .error e) :
    analyze P env W req =
      (errorResponse env e,
       [Call.roboflow (envText env.ROBOFLOW_API) (P.toBase64 file.buffer)]) := by
  unfold analyze analyzeTry
  simp only [hfile, hcfg, hcall, if_true]

/-- The second read of the confidence on line 73 gives the truthy value found on line 72. -/
theorem firstConfidence_of_truthy (data c : JsVal)
    (h : firstPrediction "confidence" data = .ok c) (ht : c.truthy = true) :
    firstConfidence data = .ok c := by
  unfold firstPrediction at h
  unfold firstConfidence
  cases hp : getField "predictions" data with
  | error e => simp [hp] at h
  | ok preds =>
    simp only [hp] at h ⊢
    cases hn : preds.isNullish with
    | true =>
      simp [hn] at h
      subst h
      simp [JsVal.truthy] at ht
    | false =>
      simp only [hn] at h
      cases hi : getIndex0 preds with
      | error e => simp [hi] at h
      | ok first =>
        simp only [hi] at h ⊢
        cases hf : first.isNullish with
        | true =>
          simp [hf] at h
          subst h
          simp [JsVal.truthy] at ht
        | false => simpa [hf] using h

/-- A result is an error or a value. -/
theorem except_cases {ε α : Type} (x : Except ε α) :
    (∃ e, x = .error e) ∨ (∃ a, x = .ok a) := by
  cases x with
  | error e => exact Or.inl ⟨e, rfl⟩
  | ok a => exact Or.inr ⟨a, rfl⟩

/-- The generic sentence is never empty. -/
theorem genericAdvice_ne_empty (code : String) : genericAdvice code ≠ "" := by
  unfold genericAdvice
  intro h
  have hlen := congrArg String.length h
  simp only [String.length_append] at hlen
  have hpos : 0 <
      " detected. Consult your local agriculture officer for diagnosis and treatment.".length := by
    decide
  have hzero : "".length = 0 := rfl
  omega

/-- The fallback advice is never empty. -/
theorem getFallbackAdvice_ne_empty (code : String) : getFallbackAdvice code ≠ "" := by
  unfold getFallbackAdvice
  cases h : (diseaseMap code).advice with
  | none => exact genericAdvice_ne_empty code
  | some a =>
    by_cases ha : a = ""
    · simpa [ha] using genericAdvice_ne_empty code
    · simp [ha]

/-- The outer `catch` never answers 200. -/
theorem errorResponse_status_ne_200 (env : Env) (e : JsError) :
    (errorResponse env e).status ≠ 200 := by
  unfold errorResponse
  split_ifs <;> simp

/-- A property can be read from every value other than `null` and `undefined`. -/
theorem getField_ok_of_not_nullish (k : String) (data : JsVal) (h : data.isNullish = false) :
    ∃ v, getField k data = .ok v := by
  cases data <;> simp [JsVal.isNullish] at h <;> exact ⟨_, rfl⟩

/-- Without predictions both optional chains give `undefined`. -/
theorem firstPrediction_of_no_predictions (k : String) (data : JsVal)
    (hpred : getField "predictions" data = .ok .undefined
      ∨ getField "predictions" data = .ok (.arr [])) :
    firstPrediction k data = .ok .undefined := by
  unfold firstPrediction
  rcases hpred with h | h <;> simp [h, JsVal.isNullish, getIndex0]

/-- The inner `try` for a disease code that is a string. -/
theorem tryAdvice_str (P : Platform) (env : Env) (W : World) (code : String) :
    tryAdvice P env W (.str code) =
      if envTruthy env.GEMINI_API_KEY then
        match W.gemini (geminiUrl env.GEMINI_API_KEY) (geminiPrompt code) with
        | .error e => ([.gemini (geminiUrl env.GEMINI_API_KEY) (geminiPrompt code)], .error e)
        | .ok data =>
          ([.gemini (geminiUrl env.GEMINI_API_KEY) (geminiPrompt code)],
            match geminiText data with
            | .error e => .error e
            | .ok advice => checkSubstring advice)
      else ([], .ok (getFallbackAdvice code)) := by
  unfold tryAdvice
  simp only [toStr, getFallbackAdviceOf]

/-- Only a string passes line 121. -/
theorem checkSubstring_ok (v : JsVal) (s : String) (h : checkSubstring v = .ok s) :
    v = .str s := by
  cases v <;> simp [checkSubstring] at h
  rw [h]

/-- The healthy branch makes no call and gives the fixed message. -/
theorem adviceFor_healthy (P : Platform) (env : Env) (W : World) :
    adviceFor P env W (.str "Healthy") =
      ([], .ok "No treatment needed! Your plant looks healthy.") := by
  unfold adviceFor
  simp [isHealthy]

/-- The 200 response built from the three values the handler computed. -/
theorem respond_of_advice (P : Platform) (env : Env) (W : World) (data code c : JsVal)
    (advice : String) (hcode : diseaseCodeOf data = .ok code)
    (hconf : confidenceOf P data = .ok c)
    (hadv : (adviceFor P env W code).2 = .ok advice) :
    respond P env W data =
      ((adviceFor P env W code).1,
       .ok { status := 200,
             body := [("disease", code), ("confidence", c), ("advice", .str advice)] }) := by
  unfold respond
  simp only [hcode, hconf]
  rcases hr : adviceFor P env W code with ⟨calls, res⟩
  rw [hr] at hadv
  simp only at hadv
  subst hadv
  rfl

/-- With the healthy sentinel no call follows the classification call. -/
theorem respond_calls_of_healthy (P : Platform) (env : Env) (W : World) (data : JsVal)
    (hcode : diseaseCodeOf data = .ok (.str "Healthy")) :
    (respond P env W data).1 = [] := by
  unfold respond
  simp only [hcode]
  cases confidenceOf P data with
  | error e => rfl
  | ok c => simp [adviceFor_healthy]

/-- Every failure of the inner `try` is replaced by the fallback advice. -/
theorem adviceFor_str_fallback (P : Platform) (env : Env) (W : World) (cls : String)
    (hnh : cls ≠ "Healthy")
    (hfail : envTruthy env.GEMINI_API_KEY = false
      ∨ (∃ e, W.gemini (geminiUrl env.GEMINI_API_KEY) (geminiPrompt cls) = .error e)
      ∨ (∃ d, W.gemini (geminiUrl env.GEMINI_API_KEY) (geminiPrompt cls) = .ok d
            ∧ ∀ s, geminiText d ≠ .ok (.str s))) :
    (adviceFor P env W (.str cls)).2 = .ok (getFallbackAdvice cls) := by
  unfold adviceFor
  simp only [isHealthy, hnh, decide_False, Bool.false_eq_true, if_false]
  rw [tryAdvice_str]
  have hfb : getFallbackAdviceOf P (.str cls) = .ok (getFallbackAdvice cls) := by
    simp [getFallbackAdviceOf, toStr]
  by_cases hk : envTruthy env.GEMINI_API_KEY = true
  · simp only [hk, if_true]
    rcases hfail with h | ⟨e, h⟩ | ⟨d, h, hno⟩
    · rw [hk] at h; cases h
    · simp only [h, hfb]
    · simp only [h]
      rcases except_cases (geminiText d) with ⟨e, ht⟩ | ⟨v, ht⟩
      · simp only [ht, hfb]
      · rcases except_cases (checkSubstring v) with ⟨e, hs⟩ | ⟨s, hs⟩
        · simp only [ht, hs, hfb]
        · have hv := checkSubstring_ok v s hs
          subst hv
          exact absurd ht (hno s)
  · simp only [hk]
    rfl

/-- For a string code the advice step never throws, and its advice is empty only when Gemini returned the empty text. -/
theorem adviceFor_str_total (P : Platform) (env : Env) (W : World) (code : String) :
    ∃ a, (adviceFor P env W (.str code)).2 = .ok a
      ∧ (a = "" → envTruthy env.GEMINI_API_KEY = true
          ∧ ∃ r, W.gemini (geminiUrl env.GEMINI_API_KEY) (geminiPrompt code) = .ok r
              ∧ geminiText r = .ok (.str ""))  := by
  by_cases hh : code = "Healthy"
  · subst hh
    refine ⟨_, by rw [adviceFor_healthy], fun h => ?_⟩
    exact absurd h (by decide)
  · have hfb : ∀ h, ∃ a, (adviceFor P env W (.str code)).2 = .ok a
        ∧ (a = "" → envTruthy env.GEMINI_API_KEY = true
          ∧ ∃ r, W.gemini (geminiUrl env.GEMINI_API_KEY) (geminiPrompt code) = .ok r
              ∧ geminiText r = .ok (.str "")) := fun h =>
      ⟨_, adviceFor_str_fallback P env W code hh h,
        fun h0 => absurd h0 (getFallbackAdvice_ne_empty code)⟩
    by_cases hk : envTruthy env.GEMINI_API_KEY = true
    · rcases except_cases (W.gemini (geminiUrl env.GEMINI_API_KEY) (geminiPrompt code))
        with ⟨e, hg⟩ | ⟨d, hg⟩
      · exact hfb (Or.inr (Or.inl ⟨e, hg⟩))
      · by_cases hs : ∃ s, geminiText d = .ok (.str s)
        · obtain ⟨s, hs⟩ := hs
          refine ⟨s, ?_, fun h0 => ⟨hk, d, hg, by rw [hs, h0]⟩⟩
          unfold adviceFor
          simp only [isHealthy, hh, decide_False, Bool.false_eq_true, if_false]
          rw [tryAdvice_str]
          simp only [hk, if_true, hg, hs, checkSubstring]
        · exact hfb (Or.inr (Or.inr ⟨d, hg, fun s h => hs ⟨s, h⟩⟩))
    · exact hfb (Or.inl (by simpa using hk))

/-- A class that is absent or a string gives a non-empty string as disease code. -/
theorem diseaseCodeOf_of_class (data cls : JsVal)
    (hcls : firstPrediction "class" data = .ok cls)
    (hstr : cls = .undefined ∨ ∃ s, cls = .str s) :
    ∃ d, diseaseCodeOf data = .ok (.str d) ∧ d ≠ "" := by
  unfold diseaseCodeOf
  rcases hstr with h | ⟨s, h⟩
  · subst h
    exact ⟨"Healthy", by simp [hcls, JsVal.truthy], by decide⟩
  · subst h
    by_cases hs : s = ""
    · exact ⟨"Healthy", by simp [hcls, JsVal.truthy, hs], by decide⟩
    · exact ⟨s, by simp [hcls, JsVal.truthy, hs], hs⟩

/-- Rounding to the nearest integer moves a number by at most one half. -/
theorem roundHalfEven_sub_le (y : ℚ) : |(roundHalfEven y : ℚ) - y| ≤ 1 / 2 := by
  have h1 := Int.floor_le y
  have h2 := Int.lt_floor_add_one y
  unfold roundHalfEven
  rw [abs_le]
  split_ifs with ha hb hc <;> push_cast <;> constructor <;> linarith

/-- An integer less than one half away is the rounded value. -/
theorem roundHalfEven_eq (y : ℚ) (m : ℤ) (h : |y - m| < 1 / 2) : roundHalfEven y = m := by
  have h0 := roundHalfEven_sub_le y
  rw [abs_lt] at h
  rw [abs_le] at h0
  have h3 : ((roundHalfEven y : ℤ) : ℚ) - m < 1 := by linarith
  have h4 : (-1 : ℚ) < ((roundHalfEven y : ℤ) : ℚ) - m := by linarith
  have h5 : roundHalfEven y - m < 1 := by exact_mod_cast h3
  have h6 : -1 < roundHalfEven y - m := by exact_mod_cast h4
  omega

/-- The spacing of the doubles is positive. -/
theorem ulp_pos (x : ℚ) : 0 < ulp x := by
  unfold ulp
  positivity

/-- The spacing of the doubles in the binade of exponent `e`. -/
theorem ulp_eq (x : ℚ) (e : ℤ) (he : -1022 ≤ e) (h1 : (2 : ℚ) ^ e ≤ |x|)
    (h2 : |x| < (2 : ℚ) ^ (e + 1)) : ulp x = (2 : ℚ) ^ (e - 52) := by
  have hpos : 0 < |x| := lt_of_lt_of_le (by positivity) h1
  have hlog : Int.log 2 |x| = e := by
    have ha : e ≤ Int.log 2 |x| :=
      (Int.zpow_le_iff_le_log (by norm_num) hpos).mp (by exact_mod_cast h1)
    have hb : Int.log 2 |x| < e + 1 :=
      (Int.lt_zpow_iff_log_lt (by norm_num) hpos).mp (by exact_mod_cast h2)
    omega
  unfold ulp
  rw [hlog, max_eq_left he]

/-- The double nearest to `x`, from its binade and the nearest significand. -/
theorem roundDouble_eq (x : ℚ) (e m : ℤ) (he : -1022 ≤ e) (h1 : (2 : ℚ) ^ e ≤ |x|)
    (h2 : |x| < (2 : ℚ) ^ (e + 1)) (hm : |x / (2 : ℚ) ^ (e - 52) - m| < 1 / 2) :
    roundDouble x = m * (2 : ℚ) ^ (e - 52) := by
  unfold roundDouble
  rw [ulp_eq x e he h1 h2, roundHalfEven_eq _ m hm]

/-- Rounding to a double moves a number by at most half the spacing. -/
theorem roundDouble_error (x : ℚ) : |roundDouble x - x| ≤ ulp x / 2 := by
  have hu := ulp_pos x
  have h := roundHalfEven_sub_le (x / ulp x)
  unfold roundDouble
  have hx : (roundHalfEven (x / ulp x) : ℚ) * ulp x - x
      = ((roundHalfEven (x / ulp x) : ℚ) - x / ulp x) * ulp x := by
    field_simp
  rw [hx, abs_mul, abs_of_pos hu]
  calc |(roundHalfEven (x / ulp x) : ℚ) - x / ulp x| * ulp x ≤ 1 / 2 * ulp x :=
        mul_le_mul_of_nonneg_right h hu.le
    _ = ulp x / 2 := by ring

/-- Below 128 the doubles are at most `2 ^ (-46)` apart. -/
theorem ulp_le_of_lt (x : ℚ) (hpos : 0 < x) (hlt : x < 128) : ulp x ≤ (2 : ℚ) ^ (-46 : ℤ) := by
  have hlog : Int.log 2 |x| < 7 := by
    rw [abs_of_pos hpos]
    exact (Int.lt_zpow_iff_log_lt (by norm_num) hpos).mp (by norm_num; linarith)
  unfold ulp
  apply zpow_le_zpow_right₀ (by norm_num)
  have : max (Int.log 2 |x|) (-1022) ≤ 6 := max_le (by omega) (by norm_num)
  omega

/-- A result that rounds inside the finite range is a finite double. -/
theorem ofRat_eq (x d : ℚ) (h : roundDouble x = d) (hlo : -128 < d) (hhi : d < 128) :
    JsNumber.ofRat x = .fin d := by
  have hbig : (128 : ℚ) ≤ (2 : ℚ) ^ 1024 := by
    have h7 : (128 : ℚ) = (2 : ℚ) ^ 7 := by norm_num
    rw [h7]
    exact pow_le_pow_right₀ (by norm_num) (by norm_num)
  unfold JsNumber.ofRat
  rw [h]
  have h1 : ¬ (2 : ℚ) ^ 1024 ≤ d := by
    intro hc
    linarith
  have h2 : ¬ d ≤ -(2 : ℚ) ^ 1024 := by
    intro hc
    linarith
  simp only [h1, h2, if_false]

/-- The product of a fraction in `(0, 1]` by 100 is a finite double within
`2 ^ (-47)` of the exact product. -/
theorem times100_of_fraction (c : ℚ) (hpos : 0 < c) (hle : c ≤ 1) :
    (JsNumber.fin c).times100 = .fin (roundDouble (c * 100))
      ∧ |roundDouble (c * 100) - c * 100| ≤ 1 / 2 ^ 47 := by
  have hx0 : 0 < c * 100 := by linarith
  have hx1 : c * 100 < 128 := by linarith
  have herr : |roundDouble (c * 100) - c * 100| ≤ 1 / 2 ^ 47 := by
    have h1 := roundDouble_error (c * 100)
    have h2 := ulp_le_of_lt (c * 100) hx0 hx1
    calc |roundDouble (c * 100) - c * 100| ≤ ulp (c * 100) / 2 := h1
      _ ≤ (2 : ℚ) ^ (-46 : ℤ) / 2 := (div_le_div_iff_of_pos_right (by norm_num : (0 : ℚ) < 2)).mpr h2
      _ = 1 / 2 ^ 47 := by norm_num
  refine ⟨?_, herr⟩
  rw [abs_le] at herr
  have hsmall : (1 : ℚ) / 2 ^ 47 < 1 := by norm_num
  exact ofRat_eq _ _ rfl (by linarith) (by linarith)

/-- A non-zero numeric confidence is multiplied by 100 and rounded. -/
theorem confidenceOf_of_number (P : Platform) (data : JsVal) (c : ℚ)
    (hconf : firstPrediction "confidence" data = .ok (.num (.fin c))) (hc : c ≠ 0) :
    confidenceOf P data = .ok (.num (mathRound (JsNumber.fin c).times100)) := by
  have ht : (JsVal.num (.fin c)).truthy = true := by simp [JsVal.truthy, hc]
  unfold confidenceOf
  simp only [hconf, ht, if_true, firstConfidence_of_truthy data _ hconf ht, toNumber]

/-- A response of `respond` is the 200 response built from the three computed values. -/
theorem respond_ok_inv (P : Platform) (env : Env) (W : World) (data : JsVal) (res : Response)
    (h : (respond P env W data).2 = .ok res) :
    ∃ code conf advice, diseaseCodeOf data = .ok code ∧ confidenceOf P data = .ok conf
      ∧ (adviceFor P env W code).2 = .ok advice
      ∧ res = { status := 200,
                body := [("disease", code), ("confidence", conf), ("advice", .str advice)] } := by
  unfold respond at h
  rcases except_cases (diseaseCodeOf data) with ⟨e, hd⟩ | ⟨code, hd⟩
  · simp [hd] at h
  · rcases except_cases (confidenceOf P data) with ⟨e, hc⟩ | ⟨conf, hc⟩
    · simp [hd, hc] at h
    · simp only [hd, hc] at h
      rcases ha : adviceFor P env W code with ⟨calls, r⟩
      rw [ha] at h
      cases r with
      | error e => simp at h
      | ok advice =>
        simp only [Except.ok.injEq] at h
        exact ⟨code, conf, advice, hd, hc, by rw [ha], h.symm⟩

/-- A 200 answer after a successful classification call is the response built by `respond`. -/
theorem analyze_ok_inv (P : Platform) (env : Env) (W : World) (req : Request)
    (file : UploadedFile) (data : JsVal) (hfile : req.file = some file)
    (hcfg : envTruthy env.ROBOFLOW_API = true)
    (hcall : W.roboflow (envText env.ROBOFLOW_API) (P.toBase64 file.buffer) = .ok data)
    (h200 : (analyze P env W req).1.status = 200) :
    ∃ code conf advice, diseaseCodeOf data = .ok code ∧ confidenceOf P data = .ok conf
      ∧ (adviceFor P env W code).2 = .ok advice
      ∧ (analyze P env W req).1 =
          { status := 200,
            body := [("disease", code), ("confidence", conf), ("advice", .str advice)] } := by
  rw [analyze_of_classified P env W req file data hfile hcfg hcall] at h200 ⊢
  rcases except_cases (respond P env W data).2 with ⟨e, hr⟩ | ⟨res, hr⟩
  · rw [hr] at h200
    exact absurd h200 (errorResponse_status_ne_200 env e)
  · obtain ⟨code, conf, advice, hd, hc, ha, hres⟩ := respond_ok_inv P env W data res hr
    refine ⟨code, conf, advice, hd, hc, ha, ?_⟩
    rw [hr]
    exact hres

/-- A confidence that is absent or a JSON primitive never makes lines 72 to 74 throw. -/
theorem confidenceOf_ok_of_primitive (P : Platform) (data v : JsVal)
    (h : firstPrediction "confidence" data = .ok v)
    (hprim : (∀ xs, v ≠ .arr xs) ∧ (∀ fields, v ≠ .obj fields)) :
    ∃ c, confidenceOf P data = .ok c := by
  unfold confidenceOf
  rw [h]
  by_cases ht : v.truthy = true
  · simp only [ht, if_true, firstConfidence_of_truthy data v h ht]
    cases v with
    | undefined => exact ⟨_, rfl⟩
    | null => exact ⟨_, rfl⟩
    | bool b => cases b <;> exact ⟨_, rfl⟩
    | num n => exact ⟨_, rfl⟩
    | str s => exact ⟨_, rfl⟩
    | arr xs => exact absurd rfl (hprim.1 xs)
    | obj fields => exact absurd rfl (hprim.2 fields)
  · simp only [ht]
    exact ⟨_, rfl⟩

/-- The double that `JSON.parse` reads from `0.873`. -/
theorem jsonNumber_sample :
    jsonNumber (873 / 1000) = .num (.fin (7863284949388886 / 2 ^ 53)) := by
  have h : roundDouble (873 / 1000) = 7863284949388886 / 2 ^ 53 := by
    rw [roundDouble_eq (873 / 1000) (-1) 7863284949388886 (by norm_num)
      (by rw [abs_of_pos (by norm_num)]; norm_num) (by rw [abs_of_pos (by norm_num)]; norm_num)
      (by rw [abs_lt]; constructor <;> norm_num)]
    norm_num
  unfold jsonNumber
  rw [ofRat_eq _ _ h (by norm_num) (by norm_num)]

/-- The confidence shown for a non-zero double `d`, from the double product
`p` of `d` by 100. -/
theorem confidenceOf_double (cls : String) (d p : ℚ) (n : ℤ) (hd : d ≠ 0)
    (hp : roundDouble (d * 100) = p) (hlo : -128 < p) (hhi : p < 128)
    (hn : ⌊p + 1 / 2⌋ = n) :
    confidenceOf samplePlatform (prediction cls (.num (.fin d))) = .ok (.num (.fin n)) := by
  rw [confidenceOf_of_number samplePlatform (prediction cls (.num (.fin d))) d rfl hd]
  simp only [JsNumber.times100]
  rw [ofRat_eq _ _ hp hlo hhi]
  simp only [mathRound, hn]

/-- The confidence 0.873 is shown as 87. -/
theorem sample_confidence (cls : String) :
    confidenceOf samplePlatform (prediction cls (jsonNumber (873 / 1000)))
      = .ok (.num (.fin 87)) := by
  have hprod : roundDouble (7863284949388886 / 2 ^ 53 * 100) = 6143191366710067 / 2 ^ 46 := by
    rw [roundDouble_eq _ 6 6143191366710067 (by norm_num)
      (by rw [abs_of_pos (by norm_num)]; norm_num) (by rw [abs_of_pos (by norm_num)]; norm_num)
      (by rw [abs_lt]; constructor <;> norm_num)]
    norm_num
  have hfl : ⌊(6143191366710067 / 2 ^ 46 : ℚ) + 1 / 2⌋ = 87 := by
    rw [Int.floor_eq_iff]
    constructor <;> norm_num
  rw [jsonNumber_sample, confidenceOf_double cls _ _ 87 (by norm_num) hprod (by norm_num)
    (by norm_num) hfl]
  rfl

/-- The 200 answer for a classification body with one prediction. -/
theorem analyze_sample (env : Env) (cls advice : String) (conf c : JsVal)
    (outcome : Except JsError JsVal)
    (hcfg : envTruthy env.ROBOFLOW_API = true)
    (hcode : diseaseCodeOf (prediction cls conf) = .ok (.str cls))
    (hconf : confidenceOf samplePlatform (prediction cls conf) = .ok c)
    (hadv : (adviceFor samplePlatform env (fixedWorld (prediction cls conf) outcome)
      (.str cls)).2 = .ok advice) :
    (analyze samplePlatform env (fixedWorld (prediction cls conf) outcome) sampleRequest).1 =
      { status := 200,
        body := [("disease", .str cls), ("confidence", c), ("advice", .str advice)] } := by
  rw [analyze_of_classified samplePlatform env (fixedWorld (prediction cls conf) outcome)
      sampleRequest _ (prediction cls conf) rfl hcfg rfl,
    respond_of_advice samplePlatform env _ _ (.str cls) c advice hcode hconf hadv]

/-! ## Results -/

/-- C5: a request without an uploaded file is answered with status 400 and the
body `{error: "No image uploaded"}`, whatever the environment and the outcomes
of the upstream services, and no outbound call is made. -/
theorem no_file_is_400 (P : Platform) (env : Env) (W : World) (req : Request)
    (hfile : req.file = none) :
    analyze P env W req =
      ({ status := 400, body := [("error", .str "No image uploaded")] }, []) := by
  unfold analyze analyzeTry
  simp only [hfile]

theorem no_file_is_400_witness :
    analyze samplePlatform fullEnv timeoutWorld emptyRequest =
        ({ status := 400, body := [("error", .str "No image uploaded")] }, [])
      ∧ analyze samplePlatform noRoboflowEnv timeoutWorld emptyRequest =
        ({ status := 400, body := [("error", .str "No image uploaded")] }, []) :=
  ⟨no_file_is_400 samplePlatform fullEnv timeoutWorld emptyRequest rfl,
   no_file_is_400 samplePlatform noRoboflowEnv timeoutWorld emptyRequest rfl⟩

/-- C10: a request with a file, while `ROBOFLOW_API` is unset or empty, is
answered with status 500 and a body that has an `error` field and neither a
`disease` nor an `advice` field; no outbound call is made. -/
theorem unconfigured_is_500 (P : Platform) (env : Env) (W : World) (req : Request)
    (file : UploadedFile) (hfile : req.file = some file)
    (hcfg : env.ROBOFLOW_API = none ∨ env.ROBOFLOW_API = some "") :
    (analyze P env W req).1.status = 500
      ∧ (analyze P env W req).1.body = [("error", .str "Roboflow API not configured")]
      ∧ hasField "error" (analyze P env W req).1.body = true
      ∧ hasField "disease" (analyze P env W req).1.body = false
      ∧ hasField "advice" (analyze P env W req).1.body = false
      ∧ (analyze P env W req).2 = [] := by
  have hset : envTruthy env.ROBOFLOW_API = false := by
    rcases hcfg with h | h <;> simp [h, envTruthy]
  have h : analyze P env W req =
      ({ status := 500, body := [("error", .str "Roboflow API not configured")] }, []) := by
    unfold analyze analyzeTry
    simp [hfile, hset]
  rw [h]
  refine ⟨rfl, rfl, ?_, ?_, ?_, rfl⟩ <;> simp [hasField, lookupField]

theorem unconfigured_is_500_witness :
    (analyze samplePlatform noRoboflowEnv timeoutWorld sampleRequest).1.status = 500
      ∧ (analyze samplePlatform noRoboflowEnv timeoutWorld sampleRequest).2 = [] :=
  ⟨(unconfigured_is_500 samplePlatform noRoboflowEnv timeoutWorld sampleRequest _ rfl
      (Or.inl rfl)).1,
   (unconfigured_is_500 samplePlatform noRoboflowEnv timeoutWorld sampleRequest _ rfl
      (Or.inl rfl)).2.2.2.2.2⟩

/-- C4, as stated, fails: when the classification call times out (axios error
code `ECONNABORTED`, no response) the handler answers 500, not 503. -/
theorem timeout_is_not_503 :
    (analyze samplePlatform fullEnv timeoutWorld sampleRequest).1.status = 500
      ∧ (analyze samplePlatform fullEnv timeoutWorld sampleRequest).1.status ≠ 503 := by
  constructor
  · rfl
  · decide

/-- C4, amended: when the classification call fails with code `ECONNABORTED`
and no response (its timeout elapsed), the handler answers with status 500, a
body that has an `error` field (`Analysis failed`) and neither a `disease` nor
an `advice` field, and the advice service is not called; a failed
classification call is answered with 503 exactly when its error code is
`ECONNREFUSED`. -/
theorem timeout_is_500 (P : Platform) (env : Env) (W : World) (req : Request)
    (file : UploadedFile) (e : JsError) (hfile : req.file = some file)
    (hcfg : envTruthy env.ROBOFLOW_API = true)
    (hcall : W.roboflow (envText env.ROBOFLOW_API) (P.toBase64 file.buffer) = .error e) :
    ((analyze P env W req).1.status = 503 ↔ e.code = some "ECONNREFUSED")
      ∧ (e.code = some "ECONNABORTED" → e.response = none →
          (analyze P env W req).1.status = 500
            ∧ lookupField "error" (analyze P env W req).1.body = .str "Analysis failed"
            ∧ hasField "error" (analyze P env W req).1.body = true
            ∧ hasField "disease" (analyze P env W req).1.body = false
            ∧ hasField "advice" (analyze P env W req).1.body = false
            ∧ (analyze P env W req).2 =
                [Call.roboflow (envText env.ROBOFLOW_API) (P.toBase64 file.buffer)]) := by
  rw [analyze_of_classify_error P env W req file e hfile hcfg hcall]
  constructor
  · unfold errorResponse
    split_ifs with h1 h2 h3 <;> simp [h1]
  · intro hcode hresp
    have hr : errorResponse env e =
        { status := 500,
          body := [("error", .str "Analysis failed"),
                   ("details", if env.NODE_ENV = some "development" then .str e.message
                               else .undefined)] } := by
      unfold errorResponse
      simp [hcode, hresp]
    rw [hr]
    refine ⟨rfl, ?_, ?_, ?_, ?_, rfl⟩
    · simp [lookupField]
    · simp [hasField, lookupField]
    · by_cases hd : env.NODE_ENV = some "development" <;> simp [hasField, lookupField, hd]
    · by_cases hd : env.NODE_ENV = some "development" <;> simp [hasField, lookupField, hd]

theorem timeout_is_500_witness :
    (analyze samplePlatform fullEnv timeoutWorld sampleRequest).1.status = 500
      ∧ hasField "error" (analyze samplePlatform fullEnv timeoutWorld sampleRequest).1.body = true
      ∧ hasField "disease"
          (analyze samplePlatform fullEnv timeoutWorld sampleRequest).1.body = false
      ∧ ((analyze samplePlatform fullEnv refusedWorld sampleRequest).1.status = 503
          ↔ refusedError.code = some "ECONNREFUSED") :=
  have h := (timeout_is_500 samplePlatform fullEnv timeoutWorld sampleRequest _ timeoutError
    rfl rfl rfl).2 rfl rfl
  ⟨h.1, h.2.2.1, h.2.2.2.1,
   (timeout_is_500 samplePlatform fullEnv refusedWorld sampleRequest _ refusedError
    rfl rfl rfl).1⟩

/-- C6: `getFallbackAdvice` is total on strings (a Lean function into `String`,
it cannot throw) and never returns the empty string; for every code other than
`CBB`, `CMD` and `CBSD`, names inherited from `Object.prototype` included, the
result is the code followed by the generic sentence, so it contains the code. -/
theorem fallback_total (code : String) :
    getFallbackAdvice code ≠ ""
      ∧ (code ≠ "CBB" → code ≠ "CMD" → code ≠ "CBSD" →
          getFallbackAdvice code =
            code ++ " detected. Consult your local agriculture officer for diagnosis and treatment."
          ∧ code.data <:+: (getFallbackAdvice code).data) := by
  refine ⟨getFallbackAdvice_ne_empty code, fun h1 h2 h3 => ?_⟩
  have hg : getFallbackAdvice code = genericAdvice code := by
    unfold getFallbackAdvice diseaseMap
    simp only [h1, h2, h3, if_false]
    by_cases hk : code ∈ objectPrototypeKeys <;> simp [hk, MapEntry.advice]
  refine ⟨hg, ?_⟩
  rw [hg]
  unfold genericAdvice
  rw [String.data_append]
  exact ⟨[], _, rfl⟩

theorem fallback_total_witness :
    getFallbackAdvice "XYZ" =
        "XYZ detected. Consult your local agriculture officer for diagnosis and treatment."
      ∧ getFallbackAdvice "constructor" =
        "constructor detected. Consult your local agriculture officer for diagnosis and treatment."
      ∧ getFallbackAdvice "__proto__" =
        "__proto__ detected. Consult your local agriculture officer for diagnosis and treatment." :=
  ⟨((fallback_total "XYZ").2 (by decide) (by decide) (by decide)).1,
   ((fallback_total "constructor").2 (by decide) (by decide) (by decide)).1,
   ((fallback_total "__proto__").2 (by decide) (by decide) (by decide)).1⟩

/-- C9, as stated, fails: a successful classification call whose body is JSON
`null` carries no predictions list, yet line 71 throws on reading
`data.predictions` and the handler answers 500. -/
theorem null_body_is_500 :
    (analyze samplePlatform fullEnv (fixedWorld .null (.error timeoutError))
      sampleRequest).1.status = 500 := by
  rfl

/-- C9, amended: when the classification call succeeds with a body that is
neither `null` nor `undefined` and whose `predictions` is missing or is the
empty list, the handler answers 200 with exactly `{disease: "Healthy",
confidence: "N/A", advice: "No treatment needed! Your plant looks healthy."}`,
and the only outbound call is the classification call. -/
theorem empty_predictions_is_healthy (P : Platform) (env : Env) (W : World) (req : Request)
    (file : UploadedFile) (data : JsVal) (hfile : req.file = some file)
    (hcfg : envTruthy env.ROBOFLOW_API = true)
    (hcall : W.roboflow (envText env.ROBOFLOW_API) (P.toBase64 file.buffer) = .ok data)
    (hbody : data.isNullish = false)
    (hpred : ∀ preds, getField "predictions" data = .ok preds →
      preds = .undefined ∨ preds = .arr []) :
    analyze P env W req =
      ({ status := 200,
         body := [("disease", .str "Healthy"), ("confidence", .str "N/A"),
                  ("advice", .str "No treatment needed! Your plant looks healthy.")] },
       [Call.roboflow (envText env.ROBOFLOW_API) (P.toBase64 file.buffer)]) := by
  obtain ⟨preds, hp⟩ := getField_ok_of_not_nullish "predictions" data hbody
  have hpred' : getField "predictions" data = .ok .undefined
      ∨ getField "predictions" data = .ok (.arr []) := by
    rcases hpred preds hp with h | h
    · exact Or.inl (h ▸ hp)
    · exact Or.inr (h ▸ hp)
  have hcode : diseaseCodeOf data = .ok (.str "Healthy") := by
    unfold diseaseCodeOf
    simp [firstPrediction_of_no_predictions "class" data hpred', JsVal.truthy]
  have hconf : confidenceOf P data = .ok (.str "N/A") := by
    unfold confidenceOf
    simp [firstPrediction_of_no_predictions "confidence" data hpred', JsVal.truthy]
  have hadv : (adviceFor P env W (.str "Healthy")).2
      = .ok "No treatment needed! Your plant looks healthy." := by
    rw [adviceFor_healthy]
  rw [analyze_of_classified P env W req file data hfile hcfg hcall,
    respond_of_advice P env W data _ _ _ hcode hconf hadv, adviceFor_healthy]

theorem empty_predictions_is_healthy_witness :
    analyze samplePlatform fullEnv (fixedWorld (.obj [("predictions", .arr [])]) (.ok .null))
        sampleRequest =
      ({ status := 200,
         body := [("disease", .str "Healthy"), ("confidence", .str "N/A"),
                  ("advice", .str "No treatment needed! Your plant looks healthy.")] },
       [Call.roboflow "https://detect.example/cassava" "AQID"])
    ∧ (analyze samplePlatform fullEnv (fixedWorld (.obj []) (.ok .null)) sampleRequest).1.status
        = 200 :=
  ⟨empty_predictions_is_healthy samplePlatform fullEnv
      (fixedWorld (.obj [("predictions", .arr [])]) (.ok .null)) sampleRequest _ _ rfl rfl rfl
      rfl (fun _ h => Or.inr (Except.ok.inj h).symm),
   congrArg (fun r => r.1.status)
    (empty_predictions_is_healthy samplePlatform fullEnv (fixedWorld (.obj []) (.ok .null))
      sampleRequest _ _ rfl rfl rfl rfl (fun _ h => Or.inl (Except.ok.inj h).symm))⟩

/-- C2, as stated, fails: with disease code `"Healthy"` and a confidence that
is an object with its own `toString` property, line 73 throws while converting
the confidence and the handler answers 500. -/
theorem healthy_with_unconvertible_confidence :
    diseaseCodeOf (prediction "Healthy" (.obj [("toString", .null)])) = .ok (.str "Healthy")
      ∧ (analyze samplePlatform fullEnv
          (fixedWorld (prediction "Healthy" (.obj [("toString", .null)])) (.error timeoutError))
          sampleRequest).1.status = 500 :=
  ⟨rfl, rfl⟩

/-- C2, amended: when the disease code read from the classification response is
`"Healthy"`, the handler makes no call to the advice service (the only outbound
call is the classification call), whether or not `GEMINI_API_KEY` is set; and
whenever the conversion of the confidence on lines 72 to 74 does not throw, as
for every confidence that is absent or a JSON primitive, it answers 200 with
advice exactly `No treatment needed! Your plant looks healthy.`. -/
theorem healthy_skips_advice (P : Platform) (env : Env) (W : World) (req : Request)
    (file : UploadedFile) (data : JsVal) (hfile : req.file = some file)
    (hcfg : envTruthy env.ROBOFLOW_API = true)
    (hcall : W.roboflow (envText env.ROBOFLOW_API) (P.toBase64 file.buffer) = .ok data)
    (hcode : diseaseCodeOf data = .ok (.str "Healthy")) :
    (analyze P env W req).2 =
        [Call.roboflow (envText env.ROBOFLOW_API) (P.toBase64 file.buffer)]
      ∧ (∀ c, confidenceOf P data = .ok c →
          (analyze P env W req).1 =
            { status := 200,
              body := [("disease", .str "Healthy"), ("confidence", c),
                       ("advice", .str "No treatment needed! Your plant looks healthy.")] })
      ∧ (∀ v, firstPrediction "confidence" data = .ok v →
          (∀ xs, v ≠ .arr xs) → (∀ fields, v ≠ .obj fields) →
          (analyze P env W req).1.status = 200
            ∧ lookupField "advice" (analyze P env W req).1.body
                = .str "No treatment needed! Your plant looks healthy.") := by
  have hadv : (adviceFor P env W (.str "Healthy")).2
      = .ok "No treatment needed! Your plant looks healthy." := by
    rw [adviceFor_healthy]
  have hmain : ∀ c, confidenceOf P data = .ok c →
      (analyze P env W req).1 =
        { status := 200,
          body := [("disease", .str "Healthy"), ("confidence", c),
                   ("advice", .str "No treatment needed! Your plant looks healthy.")] } := by
    intro c hconf
    rw [analyze_of_classified P env W req file data hfile hcfg hcall,
      respond_of_advice P env W data _ _ _ hcode hconf hadv]
  refine ⟨?_, hmain, fun v hv h1 h2 => ?_⟩
  · rw [analyze_of_classified P env W req file data hfile hcfg hcall]
    simp only [respond_calls_of_healthy P env W data hcode]
  · obtain ⟨c, hc⟩ := confidenceOf_ok_of_primitive P data v hv ⟨h1, h2⟩
    rw [hmain c hc]
    exact ⟨rfl, by simp [lookupField]⟩

theorem healthy_skips_advice_witness :
    (analyze samplePlatform fullEnv
        (fixedWorld (prediction "Healthy" (jsonNumber (873 / 1000))) (.ok (geminiBody (.str "x"))))
        sampleRequest).2 = [Call.roboflow "https://detect.example/cassava" "AQID"]
      ∧ (analyze samplePlatform fullEnv
        (fixedWorld (prediction "Healthy" (jsonNumber (873 / 1000))) (.ok (geminiBody (.str "x"))))
        sampleRequest).1 =
          { status := 200,
            body := [("disease", .str "Healthy"), ("confidence", .num (.fin 87)),
                     ("advice", .str "No treatment needed! Your plant looks healthy.")] } :=
  have h := healthy_skips_advice samplePlatform fullEnv
    (fixedWorld (prediction "Healthy" (jsonNumber (873 / 1000))) (.ok (geminiBody (.str "x"))))
    sampleRequest _ _ rfl rfl rfl rfl
  ⟨h.1, h.2.1 _ (sample_confidence "Healthy")⟩

/-- C1, as stated, fails: with class `CBB`, `GEMINI_API_KEY` unset and a
confidence that is an object with its own `toString` property, line 73 throws
while converting the confidence, before the advice step, and the handler
answers 500. -/
theorem fallback_with_unconvertible_confidence :
    firstPrediction "class" (prediction "CBB" (.obj [("toString", .null)])) = .ok (.str "CBB")
      ∧ envTruthy noGeminiEnv.GEMINI_API_KEY = false
      ∧ (analyze samplePlatform noGeminiEnv
          (fixedWorld (prediction "CBB" (.obj [("toString", .null)])) (.error timeoutError))
          sampleRequest).1.status = 500 :=
  ⟨rfl, rfl, rfl⟩

/-- C1, amended: with a file, a configured classification endpoint and a
classification response whose first prediction's class is a non-empty string
other than `"Healthy"`, if the advice step fails (`GEMINI_API_KEY` unset or
empty, the Gemini request throws, or the text read at
`candidates[0].content.parts[0].text` is missing or not a string), the advice
step yields `getFallbackAdvice(class)` instead of an error; and whenever the
conversion of the confidence on lines 72 to 74 does not throw, as for every
confidence that is absent or a JSON primitive, the handler answers 200 with
`disease = class` and `advice = getFallbackAdvice(class)`. -/
theorem advice_failure_falls_back (P : Platform) (env : Env) (W : World) (req : Request)
    (file : UploadedFile) (data : JsVal) (cls : String) (hfile : req.file = some file)
    (hcfg : envTruthy env.ROBOFLOW_API = true)
    (hcall : W.roboflow (envText env.ROBOFLOW_API) (P.toBase64 file.buffer) = .ok data)
    (hcls : firstPrediction "class" data = .ok (.str cls))
    (hne : cls ≠ "") (hnh : cls ≠ "Healthy")
    (hfail : envTruthy env.GEMINI_API_KEY = false
      ∨ (∃ e, W.gemini (geminiUrl env.GEMINI_API_KEY) (geminiPrompt cls) = .error e)
      ∨ (∃ d, W.gemini (geminiUrl env.GEMINI_API_KEY) (geminiPrompt cls) = .ok d
            ∧ ∀ s, geminiText d ≠ .ok (.str s))) :
    (adviceFor P env W (.str cls)).2 = .ok (getFallbackAdvice cls)
      ∧ (∀ c, confidenceOf P data = .ok c →
          (analyze P env W req).1 =
            { status := 200,
              body := [("disease", .str cls), ("confidence", c),
                       ("advice", .str (getFallbackAdvice cls))] })
      ∧ (∀ v, firstPrediction "confidence" data = .ok v →
          (∀ xs, v ≠ .arr xs) → (∀ fields, v ≠ .obj fields) →
          (analyze P env W req).1.status = 200
            ∧ lookupField "disease" (analyze P env W req).1.body = .str cls
            ∧ lookupField "advice" (analyze P env W req).1.body
                = .str (getFallbackAdvice cls)) := by
  have hadv := adviceFor_str_fallback P env W cls hnh hfail
  have hcode : diseaseCodeOf data = .ok (.str cls) := by
    unfold diseaseCodeOf
    simp [hcls, JsVal.truthy, hne]
  have hmain : ∀ c, confidenceOf P data = .ok c →
      (analyze P env W req).1 =
        { status := 200,
          body := [("disease", .str cls), ("confidence", c),
                   ("advice", .str (getFallbackAdvice cls))] } := by
    intro c hconf
    rw [analyze_of_classified P env W req file data hfile hcfg hcall,
      respond_of_advice P env W data _ _ _ hcode hconf hadv]
  refine ⟨hadv, hmain, fun v hv h1 h2 => ?_⟩
  obtain ⟨c, hc⟩ := confidenceOf_ok_of_primitive P data v hv ⟨h1, h2⟩
  rw [hmain c hc]
  exact ⟨rfl, by simp [lookupField], by simp [lookupField]⟩

theorem advice_failure_falls_back_witness :
    (analyze samplePlatform fullEnv
        (fixedWorld (prediction "CBB" (jsonNumber (873 / 1000))) (.ok (.obj [("candidates", .arr [])])))
        sampleRequest).1 =
      { status := 200,
        body := [("disease", .str "CBB"), ("confidence", .num (.fin 87)),
                 ("advice", .str "Cassava Bacterial Blight: Remove infected leaves, improve drainage, and spray with copper-based solutions.")] }
    ∧ (analyze samplePlatform fullEnv
        (fixedWorld (prediction "CGM" (jsonNumber (873 / 1000))) (.error timeoutError))
        sampleRequest).1 =
      { status := 200,
        body := [("disease", .str "CGM"), ("confidence", .num (.fin 87)),
                 ("advice", .str "CGM detected. Consult your local agriculture officer for diagnosis and treatment.")] }
    ∧ (analyze samplePlatform noGeminiEnv
        (fixedWorld (prediction "CMD" (jsonNumber (873 / 1000))) (.ok (geminiBody (.str "x"))))
        sampleRequest).1 =
      { status := 200,
        body := [("disease", .str "CMD"), ("confidence", .num (.fin 87)),
                 ("advice", .str "Cassava Mosaic Disease: Uproot infected plants and use clean cuttings from resistant varieties.")] } :=
  ⟨(advice_failure_falls_back samplePlatform fullEnv
      (fixedWorld (prediction "CBB" (jsonNumber (873 / 1000))) (.ok (.obj [("candidates", .arr [])])))
      sampleRequest _ _ "CBB" rfl rfl rfl rfl (by decide) (by decide)
      (Or.inr (Or.inr ⟨_, rfl, fun s h => by cases h⟩))).2.1 _ (sample_confidence "CBB"),
   (advice_failure_falls_back samplePlatform fullEnv
      (fixedWorld (prediction "CGM" (jsonNumber (873 / 1000))) (.error timeoutError))
      sampleRequest _ _ "CGM" rfl rfl rfl rfl (by decide) (by decide)
      (Or.inr (Or.inl ⟨_, rfl⟩))).2.1 _ (sample_confidence "CGM"),
   (advice_failure_falls_back samplePlatform noGeminiEnv
      (fixedWorld (prediction "CMD" (jsonNumber (873 / 1000))) (.ok (geminiBody (.str "x"))))
      sampleRequest _ _ "CMD" rfl rfl rfl rfl (by decide) (by decide)
      (Or.inl rfl)).2.1 _ (sample_confidence "CMD")⟩

/-- C3, as stated, fails: with class `CBB` and a Gemini response whose first
candidate's text is the empty string, the handler answers 200 with
`advice: ""`. -/
theorem empty_advice_text_is_returned :
    (analyze samplePlatform fullEnv
        (fixedWorld (prediction "CBB" (jsonNumber (873 / 1000))) (.ok (geminiBody (.str ""))))
        sampleRequest).1 =
      { status := 200,
        body := [("disease", .str "CBB"), ("confidence", .num (.fin 87)),
                 ("advice", .str "")] } := by
  exact analyze_sample fullEnv "CBB" "" (jsonNumber (873 / 1000)) (.num (.fin 87)) _ rfl rfl
    (sample_confidence "CBB") rfl

/-- C3, amended: in every 200 response to a request whose classification
succeeded with a first prediction's class that is absent or a string, the
`disease` field is a non-empty string and the `advice` field is a string; the
advice is empty only when `GEMINI_API_KEY` is set and the Gemini response
carries the empty string as its first candidate's text, which the handler
returns verbatim. -/
theorem ok_response_fields (P : Platform) (env : Env) (W : World) (req : Request)
    (file : UploadedFile) (data cls : JsVal) (hfile : req.file = some file)
    (hcfg : envTruthy env.ROBOFLOW_API = true)
    (hcall : W.roboflow (envText env.ROBOFLOW_API) (P.toBase64 file.buffer) = .ok data)
    (hcls : firstPrediction "class" data = .ok cls)
    (hstr : cls = .undefined ∨ ∃ s, cls = .str s)
    (h200 : (analyze P env W req).1.status = 200) :
    ∃ d a, lookupField "disease" (analyze P env W req).1.body = .str d ∧ d ≠ ""
      ∧ lookupField "advice" (analyze P env W req).1.body = .str a
      ∧ (a = "" → envTruthy env.GEMINI_API_KEY = true
          ∧ ∃ r, W.gemini (geminiUrl env.GEMINI_API_KEY) (geminiPrompt d) = .ok r
              ∧ geminiText r = .ok (.str "")) := by
  obtain ⟨code, conf, advice, hd, _, ha, hres⟩ :=
    analyze_ok_inv P env W req file data hfile hcfg hcall h200
  obtain ⟨d, hd', hdne⟩ := diseaseCodeOf_of_class data cls hcls hstr
  rw [hd'] at hd
  simp only [Except.ok.injEq] at hd
  subst hd
  obtain ⟨a, ha', hempty⟩ := adviceFor_str_total P env W d
  rw [ha'] at ha
  simp only [Except.ok.injEq] at ha
  subst ha
  rw [hres]
  exact ⟨d, a, by simp [lookupField], hdne, by simp [lookupField], hempty⟩

theorem ok_response_fields_witness :
    ∃ d a, lookupField "disease" (analyze samplePlatform fullEnv
        (fixedWorld (prediction "CBB" (jsonNumber (873 / 1000)))
          (.ok (geminiBody (.str "Remove infected leaves."))))
        sampleRequest).1.body = .str d ∧ d ≠ ""
      ∧ lookupField "advice" (analyze samplePlatform fullEnv
        (fixedWorld (prediction "CBB" (jsonNumber (873 / 1000)))
          (.ok (geminiBody (.str "Remove infected leaves."))))
        sampleRequest).1.body = .str a
      ∧ (a = "" → envTruthy fullEnv.GEMINI_API_KEY = true
          ∧ ∃ r, (fixedWorld (prediction "CBB" (jsonNumber (873 / 1000)))
                (.ok (geminiBody (.str "Remove infected leaves.")))).gemini
                (geminiUrl fullEnv.GEMINI_API_KEY) (geminiPrompt d) = .ok r
              ∧ geminiText r = .ok (.str "")) :=
  ok_response_fields samplePlatform fullEnv
    (fixedWorld (prediction "CBB" (jsonNumber (873 / 1000)))
      (.ok (geminiBody (.str "Remove infected leaves."))))
    sampleRequest _ _ (.str "CBB") rfl rfl rfl rfl (Or.inr ⟨"CBB", rfl⟩)
    (congrArg Response.status
      (analyze_sample fullEnv "CBB" "Remove infected leaves." (jsonNumber (873 / 1000))
        (.num (.fin 87)) (.ok (geminiBody (.str "Remove infected leaves."))) rfl rfl
        (sample_confidence "CBB") rfl))

/-- C7, as stated, fails: line 73 multiplies doubles. The double read from
`0.015` has the exact value `8646911284551352 / 2 ^ 59`, just below 0.015, so
the integer nearest to 100 times that value is 1, yet the double product is
1.5 and the handler answers 2. Read as the decimal, `0.285` has 100 times its
value at 28.5, which rounds up to 29, yet the double product is below 28.5 and
the handler answers 28. -/
theorem confidence_is_rounded_from_double_product :
    jsonNumber (15 / 1000) = .num (.fin (8646911284551352 / 2 ^ 59))
      ∧ (0 : ℚ) < 8646911284551352 / 2 ^ 59 ∧ (8646911284551352 / 2 ^ 59 : ℚ) ≤ 1
      ∧ confidenceOf samplePlatform (prediction "CBB" (jsonNumber (15 / 1000)))
          = .ok (.num (.fin 2))
      ∧ ⌊(8646911284551352 / 2 ^ 59 : ℚ) * 100 + 1 / 2⌋ = 1
      ∧ confidenceOf samplePlatform (prediction "CBB" (jsonNumber (285 / 1000)))
          = .ok (.num (.fin 28))
      ∧ ⌊(285 / 1000 : ℚ) * 100 + 1 / 2⌋ = 29 := by
  have h15 : jsonNumber (15 / 1000) = .num (.fin (8646911284551352 / 2 ^ 59)) := by
    have h : roundDouble (15 / 1000) = 8646911284551352 / 2 ^ 59 := by
      rw [roundDouble_eq (15 / 1000) (-7) 8646911284551352 (by norm_num)
        (by rw [abs_of_pos (by norm_num)]; norm_num)
        (by rw [abs_of_pos (by norm_num)]; norm_num)
        (by rw [abs_lt]; constructor <;> norm_num)]
      norm_num
    unfold jsonNumber
    rw [ofRat_eq _ _ h (by norm_num) (by norm_num)]
  have h285 : jsonNumber (285 / 1000) = .num (.fin (5134103575202365 / 2 ^ 54)) := by
    have h : roundDouble (285 / 1000) = 5134103575202365 / 2 ^ 54 := by
      rw [roundDouble_eq (285 / 1000) (-2) 5134103575202365 (by norm_num)
        (by rw [abs_of_pos (by norm_num)]; norm_num)
        (by rw [abs_of_pos (by norm_num)]; norm_num)
        (by rw [abs_lt]; constructor <;> norm_num)]
      norm_num
    unfold jsonNumber
    rw [ofRat_eq _ _ h (by norm_num) (by norm_num)]
  have hp15 : roundDouble (8646911284551352 / 2 ^ 59 * 100) = 3 / 2 := by
    rw [roundDouble_eq _ 0 6755399441055744 (by norm_num)
      (by rw [abs_of_pos (by norm_num)]; norm_num) (by rw [abs_of_pos (by norm_num)]; norm_num)
      (by rw [abs_lt]; constructor <;> norm_num)]
    norm_num
  have hp285 : roundDouble (5134103575202365 / 2 ^ 54 * 100) = 8022036836253695 / 2 ^ 48 := by
    rw [roundDouble_eq _ 4 8022036836253695 (by norm_num)
      (by rw [abs_of_pos (by norm_num)]; norm_num) (by rw [abs_of_pos (by norm_num)]; norm_num)
      (by rw [abs_lt]; constructor <;> norm_num)]
    norm_num
  refine ⟨h15, by norm_num, by norm_num, ?_, ?_, ?_, ?_⟩
  · rw [h15, confidenceOf_double "CBB" _ _ 2 (by norm_num) hp15 (by norm_num) (by norm_num)
      (by rw [Int.floor_eq_iff]; constructor <;> norm_num)]
    rfl
  · rw [Int.floor_eq_iff]
    constructor <;> norm_num
  · rw [h285, confidenceOf_double "CBB" _ _ 28 (by norm_num) hp285 (by norm_num) (by norm_num)
      (by rw [Int.floor_eq_iff]; constructor <;> norm_num)]
    rfl
  · rw [Int.floor_eq_iff]
    constructor <;> norm_num

/-- C7, amended: when the first prediction carries a confidence fraction `c`
with `0 < c ≤ 1`, the confidence computed by the handler, and the `confidence`
field of its 200 response, is the integer `n` obtained by rounding the double
product `c * 100`, which lies within `2 ^ (-47)` of the exact `100 * c`, to the
nearest integer, halves rounded up; `n` lies between 0 and 100 and within
`1/2 + 2 ^ (-47)` of `100 * c`; and the double read from `0.873` gives 87. -/
theorem confidence_rounds (P : Platform) (env : Env) (W : World) (req : Request)
    (file : UploadedFile) (data : JsVal) (c : ℚ) (hfile : req.file = some file)
    (hcfg : envTruthy env.ROBOFLOW_API = true)
    (hcall : W.roboflow (envText env.ROBOFLOW_API) (P.toBase64 file.buffer) = .ok data)
    (hconf : firstPrediction "confidence" data = .ok (.num (.fin c)))
    (hpos : 0 < c) (hle : c ≤ 1) :
    confidenceOf P data = .ok (.num (.fin (⌊roundDouble (c * 100) + 1 / 2⌋ : ℤ)))
      ∧ ((analyze P env W req).1.status = 200 →
          lookupField "confidence" (analyze P env W req).1.body
            = .num (.fin (⌊roundDouble (c * 100) + 1 / 2⌋ : ℤ)))
      ∧ |roundDouble (c * 100) - c * 100| ≤ 1 / 2 ^ 47
      ∧ roundDouble (c * 100) - 1 / 2 < (⌊roundDouble (c * 100) + 1 / 2⌋ : ℤ)
      ∧ ((⌊roundDouble (c * 100) + 1 / 2⌋ : ℤ) : ℚ) ≤ roundDouble (c * 100) + 1 / 2
      ∧ c * 100 - 1 / 2 - 1 / 2 ^ 47 < (⌊roundDouble (c * 100) + 1 / 2⌋ : ℤ)
      ∧ ((⌊roundDouble (c * 100) + 1 / 2⌋ : ℤ) : ℚ) ≤ c * 100 + 1 / 2 + 1 / 2 ^ 47
      ∧ 0 ≤ ⌊roundDouble (c * 100) + 1 / 2⌋ ∧ ⌊roundDouble (c * 100) + 1 / 2⌋ ≤ 100
      ∧ (JsVal.num (.fin c) = jsonNumber (873 / 1000) →
          ⌊roundDouble (c * 100) + 1 / 2⌋ = 87) := by
  obtain ⟨htimes, herr⟩ := times100_of_fraction c hpos hle
  have hc : confidenceOf P data
      = .ok (.num (.fin (⌊roundDouble (c * 100) + 1 / 2⌋ : ℤ))) := by
    rw [confidenceOf_of_number P data c hconf (ne_of_gt hpos), htimes]
    rfl
  have hfl1 := Int.floor_le (roundDouble (c * 100) + 1 / 2)
  have hfl2 := Int.lt_floor_add_one (roundDouble (c * 100) + 1 / 2)
  have herr' := abs_le.mp herr
  have hsmall : (1 : ℚ) / 2 ^ 47 < 1 / 2 := by norm_num
  refine ⟨hc, fun h200 => ?_, herr, by linarith, hfl1, by linarith, by linarith, ?_, ?_,
    fun h => ?_⟩
  · obtain ⟨code, conf, advice, _, hc', _, hres⟩ :=
      analyze_ok_inv P env W req file data hfile hcfg hcall h200
    rw [hc] at hc'
    simp only [Except.ok.injEq] at hc'
    subst hc'
    rw [hres]
    simp [lookupField]
  · apply Int.floor_nonneg.mpr
    linarith
  · have h1 : ⌊roundDouble (c * 100) + 1 / 2⌋ < 101 := by
      rw [Int.floor_lt]
      push_cast
      linarith
    omega
  · rw [jsonNumber_sample] at h
    simp only [JsVal.num.injEq, JsNumber.fin.injEq] at h
    subst h
    have hprod : roundDouble (7863284949388886 / 2 ^ 53 * 100)
        = 6143191366710067 / 2 ^ 46 := by
      rw [roundDouble_eq _ 6 6143191366710067 (by norm_num)
        (by rw [abs_of_pos (by norm_num)]; norm_num)
        (by rw [abs_of_pos (by norm_num)]; norm_num)
        (by rw [abs_lt]; constructor <;> norm_num)]
      norm_num
    rw [hprod, Int.floor_eq_iff]
    constructor <;> norm_num

theorem confidence_rounds_witness :
    lookupField "confidence" (analyze samplePlatform noGeminiEnv
        (fixedWorld (prediction "CBB" (jsonNumber (873 / 1000))) (.error timeoutError))
        sampleRequest).1.body = .num (.fin ((87 : ℤ) : ℚ)) :=
  have h := confidence_rounds samplePlatform noGeminiEnv
    (fixedWorld (prediction "CBB" (jsonNumber (873 / 1000))) (.error timeoutError))
    sampleRequest _ _ (7863284949388886 / 2 ^ 53) rfl rfl rfl
    (by rw [jsonNumber_sample]; rfl) (by norm_num) (by norm_num)
  (h.2.2.2.2.2.2.2.2.2 jsonNumber_sample.symm) ▸ h.2.1
    (congrArg Response.status
      (analyze_sample noGeminiEnv "CBB" (getFallbackAdvice "CBB") (jsonNumber (873 / 1000))
        (.num (.fin 87)) (.error timeoutError) rfl rfl (sample_confidence "CBB") rfl))

/-- C8 fails on the code: a first prediction with the numeric confidence 0 is
answered with the `"N/A"` marker, because line 72 tests the confidence for
truthiness and 0 is falsy. -/
theorem zero_confidence_is_unavailable :
    confidenceOf samplePlatform (prediction "CBB" (.num (.fin 0))) = .ok (.str "N/A")
      ∧ analyze samplePlatform noGeminiEnv
          (fixedWorld (prediction "CBB" (.num (.fin 0))) (.error timeoutError)) sampleRequest =
        ({ status := 200,
           body := [("disease", .str "CBB"), ("confidence", .str "N/A"),
                    ("advice", .str (getFallbackAdvice "CBB"))] },
         [Call.roboflow "https://detect.example/cassava" "AQID"]) :=
  ⟨rfl, rfl⟩

end Kawogo
